import Mathlib

/-!
A shallow embedding of `src/index.js`, a small HTTP gateway ("Stripe MCP
Server") with three routes:

* `GET /health`  — a health snapshot whose `env.stripeConfigured` flag is the
  truthiness of the `STRIPE_SECRET_KEY` environment variable;
* `GET /`        — an info document whose `status` field reflects whether the
  Stripe client handle was constructed;
* `POST /mcp`    — a dispatcher over four method names that forwards to the
  external Stripe collaborator and normalises errors.

JavaScript values are embedded as follows: decimal currency amounts become
exact rationals (`Rat`), `Math.round` becomes `⌊q + 1/2⌋` (round half toward
+∞, as `Math.round` does), strings stay `String`, and a parameter that may be
`undefined` becomes an `Option`.  The JavaScript `x || d` idiom on strings is
`jsStrOr`, whose falsy cases for a string value are exactly `undefined`/absent
and the empty string.  The Stripe SDK is an external collaborator: it is
modelled as a record of operations returning `Except StripeError Payload`, and
the dispatcher additionally returns the ordered trace of collaborator calls it
issued, so that claims about which upstream operations run, with which
arguments and in which order, are statements about that trace.
-/

/-- `Math.round` on an exact rational: round to nearest, half toward +∞,
i.e. `⌊q + 1/2⌋` (computed with the executable `Rat.floor`). -/
def jsRound (q : Rat) : Int := (q + 1/2).floor

/-- The JavaScript `x || d` idiom for an optional string value: `undefined`
(absent) and the empty string are falsy and fall through to the default. -/
def jsStrOr : Option String → String → String
  | none, d => d
  | some s, d => if s = "" then d else s

/-- Truthiness of an optional environment-variable string (`!!x` / `if (x)`). -/
def truthy : Option String → Bool
  | none => false
  | some s => s ≠ ""

/-- Opaque collaborator payload (the JSON record Stripe returns). -/
abbrev Payload := String

/-- An error thrown by the Stripe collaborator: `message` and optional `type`
(source: the `catch` block reads `error.message` and `error.type`). -/
structure StripeError where
  message : String
  type : Option String
deriving DecidableEq, Repr

/-- Argument record of `stripe.customers.create` (src/index.js lines 91-94). -/
structure CustomerReq where
  email : Option String
  description : String
deriving DecidableEq, Repr

/-- Argument record of `stripe.invoiceItems.create` (lines 100-105); `amount`
is already in integer minor units. -/
structure InvoiceItemReq where
  customer : Option String
  amount : Int
  currency : String
  description : Option String
deriving DecidableEq, Repr

/-- Argument record of `stripe.invoices.create` (lines 108-112). -/
structure InvoiceReq where
  customer : Option String
  collection_method : String
  days_until_due : Nat
deriving DecidableEq, Repr

/-- Argument record of `stripe.paymentIntents.create` (lines 117-125). -/
structure PaymentIntentReq where
  amount : Int
  currency : String
  payment_method : Option String
  customer : Option String
  confirmation_method : String
  confirm : Bool
  return_url : String
deriving DecidableEq, Repr

/-- The external Stripe collaborator: one operation per SDK call site. -/
structure Stripe where
  customersCreate : CustomerReq → Except StripeError Payload
  invoiceItemsCreate : InvoiceItemReq → Except StripeError Payload
  invoicesCreate : InvoiceReq → Except StripeError Payload
  paymentIntentsCreate : PaymentIntentReq → Except StripeError Payload
  customersRetrieve : Option String → Except StripeError Payload

/-- One collaborator invocation, recorded in dispatch order. -/
inductive StripeCall where
  | customersCreate (r : CustomerReq)
  | invoiceItemsCreate (r : InvoiceItemReq)
  | invoicesCreate (r : InvoiceReq)
  | paymentIntentsCreate (r : PaymentIntentReq)
  | customersRetrieve (customer_id : Option String)
deriving DecidableEq, Repr

/-- One entry of `params.items` in a `create_invoice` request.  `amount` is a
decimal currency amount (exact rational). -/
structure Item where
  amount : Rat
  description : Option String
deriving DecidableEq, Repr

/-- The `params` object of a `POST /mcp` request, with each field optional
when the handlers tolerate its absence.  `amount` is kept as a required
rational: the numeric claims are about requests that do supply it (an absent
`amount` would make the JavaScript compute `NaN`, outside the rational
model). -/
structure Params where
  email : Option String
  description : Option String
  items : Option (List Item)
  customer_id : Option String
  currency : Option String
  amount : Rat
  payment_method : Option String
deriving DecidableEq, Repr

/-- A `POST /mcp` request body: `const { method, params } = req.body`. -/
structure DispatchRequest where
  method : String
  params : Params
deriving DecidableEq, Repr

/-- The JSON body of a `POST /mcp` response, one constructor per literal shape
in the source. -/
inductive McpBody where
  | errorOnly (error : String)
  | errorWithMethods (error : String) (available_methods : List String)
  | errorWithType (error : String) (type : String)
  | successCustomer (customer : Payload)
  | successInvoice (invoice : Payload)
  | successPaymentIntent (paymentIntent : Payload)
deriving DecidableEq, Repr

/-- HTTP status plus JSON body as returned by the `/mcp` handler. -/
structure McpResponse where
  status : Nat
  body : McpBody
deriving DecidableEq, Repr

/-- The four strings of `available_methods` (line 136), which are also the
four switch cases. -/
def availableMethods : List String :=
  ["create_customer", "create_invoice", "process_payment", "retrieve_customer"]

/-- The 500 body produced when `stripe` is absent (lines 80-84). -/
def notConfiguredMsg : String :=
  "Stripe not configured - STRIPE_SECRET_KEY environment variable is required"

/-- The `catch` block (lines 139-145): a collaborator error becomes HTTP 500
with the collaborator's message and `error.type || 'api_error'`. -/
def apiFailure (e : StripeError) : McpResponse :=
  ⟨500, .errorWithType e.message (jsStrOr e.type "api_error")⟩

/-- `stripe.customers.create` argument built by `create_customer`
(lines 91-94): `params.email` and `params.description || 'Created via MCP'`. -/
def customerReq (p : Params) : CustomerReq :=
  { email := p.email
    description := jsStrOr p.description "Created via MCP" }

/-- `stripe.invoiceItems.create` argument built for one item (lines 100-105):
`Math.round(item.amount * 100)` minor units and `params.currency || 'usd'`. -/
def itemReq (p : Params) (it : Item) : InvoiceItemReq :=
  { customer := p.customer_id
    amount := jsRound (it.amount * 100)
    currency := jsStrOr p.currency "usd"
    description := it.description }

/-- `stripe.invoices.create` argument (lines 108-112). -/
def invoiceReq (p : Params) : InvoiceReq :=
  { customer := p.customer_id
    collection_method := "send_invoice"
    days_until_due := 30 }

/-- `stripe.paymentIntents.create` argument (lines 117-125). -/
def piReq (p : Params) : PaymentIntentReq :=
  { amount := jsRound (p.amount * 100)
    currency := jsStrOr p.currency "usd"
    payment_method := p.payment_method
    customer := p.customer_id
    confirmation_method := "manual"
    confirm := true
    return_url := "https://your-website.com/return" }

/-- The sequential `for (const item of params.items || [])` loop (lines
99-106): each item is awaited before the next is issued, and a thrown error
aborts the loop.  Returns the first error (if any) and the trace of
`invoiceItems.create` calls actually issued. -/
def runItems (s : Stripe) (p : Params) : List Item → Option StripeError × List StripeCall
  | [] => (none, [])
  | it :: rest =>
    match s.invoiceItemsCreate (itemReq p it) with
    | .error e => (some e, [.invoiceItemsCreate (itemReq p it)])
    | .ok _ =>
      ((runItems s p rest).1,
       .invoiceItemsCreate (itemReq p it) :: (runItems s p rest).2)

/-- The `switch (method)` with the surrounding `try`/`catch` (lines 86-145),
for a present handle.  Returns the HTTP response and the ordered trace of
collaborator calls.  The switch is embedded as the equivalent sequential
comparison chain. -/
def dispatchConfigured (s : Stripe) (method : String) (p : Params) :
    McpResponse × List StripeCall :=
  if method = "create_customer" then
    match s.customersCreate (customerReq p) with
    | .ok c => (⟨200, .successCustomer c⟩, [.customersCreate (customerReq p)])
    | .error e => (apiFailure e, [.customersCreate (customerReq p)])
  else if method = "create_invoice" then
    match (runItems s p (p.items.getD [])).1 with
    | some e => (apiFailure e, (runItems s p (p.items.getD [])).2)
    | none =>
      match s.invoicesCreate (invoiceReq p) with
      | .ok _inv =>
        (⟨200, .successInvoice _inv⟩,
         (runItems s p (p.items.getD [])).2 ++ [.invoicesCreate (invoiceReq p)])
      | .error e =>
        (apiFailure e,
         (runItems s p (p.items.getD [])).2 ++ [.invoicesCreate (invoiceReq p)])
  else if method = "process_payment" then
    match s.paymentIntentsCreate (piReq p) with
    | .ok pi => (⟨200, .successPaymentIntent pi⟩, [.paymentIntentsCreate (piReq p)])
    | .error e => (apiFailure e, [.paymentIntentsCreate (piReq p)])
  else if method = "retrieve_customer" then
    match s.customersRetrieve p.customer_id with
    | .ok c => (⟨200, .successCustomer c⟩, [.customersRetrieve p.customer_id])
    | .error e => (apiFailure e, [.customersRetrieve p.customer_id])
  else
    (⟨400, .errorWithMethods "Unknown method" availableMethods⟩, [])

/-- The full `POST /mcp` handler (lines 79-146): if the handle is absent the
request is rejected with HTTP 500 before the method name is read; otherwise it
is dispatched. -/
def dispatch (stripe : Option Stripe) (req : DispatchRequest) :
    McpResponse × List StripeCall :=
  match stripe with
  | none => (⟨500, .errorOnly notConfiguredMsg⟩, [])
  | some s => dispatchConfigured s req.method req.params

/-- Startup initialisation (lines 46-60): the handle is constructed only when
the credential is truthy; a constructor failure is caught, leaving the handle
absent and recording the error message (`stripeError`).  `mk` models
`require('stripe')(key)`, which may throw. -/
def initStripe (key : Option String) (mk : String → Except String Stripe) :
    Option Stripe × Option String :=
  match key with
  | none => (none, none)
  | some k =>
    if k = "" then (none, none)
    else
      match mk k with
      | .ok s => (some s, none)
      | .error msg => (none, some msg)

/-- The fields of the `GET /health` body that the claims are about
(lines 29-43): `status` and `env.stripeConfigured`. -/
structure HealthBody where
  status : String
  stripeConfigured : Bool
deriving DecidableEq, Repr

/-- The `GET /health` handler: always HTTP 200, `status: 'healthy'`, and
`stripeConfigured := !!process.env.STRIPE_SECRET_KEY` (line 38) — computed
from the environment variable, not from the handle. -/
def healthHandler (key : Option String) : Nat × HealthBody :=
  (200, ⟨"healthy", truthy key⟩)

/-- The `GET /` body (lines 63-76). -/
structure RootBody where
  name : String
  version : String
  description : String
  tools : List String
  status : String
deriving DecidableEq, Repr

/-- The `GET /` handler: `status` is `'ready'` when the handle is present
(`stripe ? 'ready' : 'stripe_not_configured'`, line 74). -/
def rootHandler (stripe : Option Stripe) : RootBody :=
  { name := "Stripe MCP Server"
    version := "1.0.0"
    description := "Model Context Protocol server for Stripe API integration"
    tools := ["create_customer", "create_invoice", "process_payment", "retrieve_customer"]
    status := if stripe.isSome then "ready" else "stripe_not_configured" }

/-- An incoming HTTP request to one of the three routes. -/
inductive ServerReq where
  | health
  | root
  | mcp (r : DispatchRequest)

/-- The response to one `ServerReq`. -/
inductive ServerResp where
  | health (status : Nat) (body : HealthBody)
  | root (body : RootBody)
  | mcp (resp : McpResponse) (calls : List StripeCall)

/-- Route one request against the process-wide state.  The credential and the
handle are fixed at startup and never mutated (the source never reassigns
`stripe` after initialisation), so handling is a pure map. -/
def handleReq (key : Option String) (stripe : Option Stripe) :
    ServerReq → ServerResp
  | .health => .health (healthHandler key).1 (healthHandler key).2
  | .root => .root (rootHandler stripe)
  | .mcp r => .mcp (dispatch stripe r).1 (dispatch stripe r).2

/-- A whole server run: initialise once from the credential, then serve the
request list in order. -/
def serve (key : Option String) (mk : String → Except String Stripe)
    (reqs : List ServerReq) : List ServerResp :=
  reqs.map (handleReq key (initStripe key mk).1)

/-- Does a collaborator call carry the given currency?  Calls without a
currency field (`invoices.create`, `customers.*`) pass vacuously. -/
def callCurrencyOk (cur : String) : StripeCall → Bool
  | .invoiceItemsCreate r => r.currency = cur
  | .paymentIntentsCreate r => r.currency = cur
  | _ => true

/-- A collaborator for which every operation succeeds (concrete test double). -/
def okStripe : Stripe :=
  { customersCreate := fun _ => .ok "cus_created"
    invoiceItemsCreate := fun _ => .ok "ii_created"
    invoicesCreate := fun _ => .ok "in_created"
    paymentIntentsCreate := fun _ => .ok "pi_created"
    customersRetrieve := fun _ => .ok "cus_retrieved" }

/-- A collaborator that rejects the line item described `"B"` and accepts
everything else (concrete test double). -/
def failSecondStripe : Stripe :=
  { okStripe with
    invoiceItemsCreate := fun r =>
      if r.description = some "B" then .error ⟨"card declined", none⟩
      else .ok "ii_created" }

/-- A baseline concrete `params` object. -/
def p0 : Params :=
  { email := some "user@example.com"
    description := none
    items := none
    customer_id := some "cus_123"
    currency := none
    amount := 10
    payment_method := some "pm_1" }

/-- First concrete line item. -/
def itemA : Item := ⟨10, some "A"⟩

/-- Second concrete line item (the one `failSecondStripe` rejects). -/
def itemB : Item := ⟨20, some "B"⟩

/-- Concrete `params` carrying the two items above. -/
def pAB : Params := { p0 with items := some [itemA, itemB] }

/-- `jsRound` agrees with the mathematical `⌊q + 1/2⌋`. -/
theorem jsRound_eq_floor (q : Rat) : jsRound q = ⌊q + 1/2⌋ := by
  rw [jsRound, Rat.floor_def', ← Rat.floor_def]

/-- Every `invoiceItems.create` call issued by the item loop carries the
request's resolved currency. -/
theorem runItems_currency (s : Stripe) (p : Params) (l : List Item) :
    ((runItems s p l).2.all (callCurrencyOk (jsStrOr p.currency "usd"))) = true := by
  induction l with
  | nil => rfl
  | cons it rest ih =>
    unfold runItems
    cases h : s.invoiceItemsCreate (itemReq p it) <;>
      simp_all [callCurrencyOk, itemReq]

/-- C1: for every incoming dispatch request, whatever the method name, if the
handle is absent the dispatcher immediately produces the configuration
failure (HTTP 500, fixed message) with an empty collaborator-call trace —
without inspecting the method name and without invoking any collaborator
operation. -/
theorem dispatch_unconfigured_fails_closed (req : DispatchRequest) :
    dispatch none req = (⟨500, .errorOnly notConfiguredMsg⟩, []) := rfl

/-- C4: for every request whose method is not one of the four recognized
names, with the handle present, the dispatcher answers HTTP 400 listing
exactly the four recognized method names, and issues no collaborator call. -/
theorem dispatch_unknown_method_bad_request (s : Stripe) (p : Params)
    (m : String) (h : m ∉ availableMethods) :
    dispatch (some s) ⟨m, p⟩ =
      (⟨400, .errorWithMethods "Unknown method" availableMethods⟩, [])
    ∧ availableMethods =
      ["create_customer", "create_invoice", "process_payment", "retrieve_customer"] := by
  simp only [availableMethods, List.mem_cons, List.not_mem_nil, or_false, not_or] at h
  obtain ⟨h1, h2, h3, h4⟩ := h
  refine ⟨?_, rfl⟩
  show dispatchConfigured s m p = _
  unfold dispatchConfigured
  rw [if_neg h1, if_neg h2, if_neg h3, if_neg h4]

/-- Witness for C4 at the concrete method name `"does_not_exist"`. -/
theorem dispatch_unknown_method_bad_request_witness :
    dispatch (some okStripe) ⟨"does_not_exist", p0⟩ =
      (⟨400, .errorWithMethods "Unknown method" availableMethods⟩, []) :=
  (dispatch_unknown_method_bad_request okStripe p0 "does_not_exist" (by decide)).1

/-- C8: for every `create_customer` request with the handle present, the
dispatcher forwards the given email, and the given description when it is a
non-empty string — or the fixed marker default `"Created via MCP"` when it is
absent — to the collaborator's customer-creation operation, and wraps the
returned customer record in a 200 success. -/
theorem create_customer_forwards (s : Stripe) (p : Params) (c : Payload)
    (h : s.customersCreate (customerReq p) = .ok c) :
    dispatch (some s) ⟨"create_customer", p⟩ =
      (⟨200, .successCustomer c⟩, [.customersCreate (customerReq p)])
    ∧ (customerReq p).email = p.email
    ∧ (p.description = none → (customerReq p).description = "Created via MCP")
    ∧ (∀ d, p.description = some d → d ≠ "" → (customerReq p).description = d) := by
  refine ⟨?_, rfl, ?_, ?_⟩
  · show dispatchConfigured s "create_customer" p = _
    unfold dispatchConfigured
    rw [if_pos rfl, h]
  · intro hd
    simp [customerReq, jsStrOr, hd]
  · intro d hd hne
    simp [customerReq, jsStrOr, hd, hne]

/-- Witness for C8 at a concrete request and an all-succeeding collaborator. -/
theorem create_customer_forwards_witness :
    dispatch (some okStripe) ⟨"create_customer", p0⟩ =
      (⟨200, .successCustomer "cus_created"⟩, [.customersCreate (customerReq p0)])
    ∧ (customerReq p0).description = "Created via MCP" :=
  ⟨(create_customer_forwards okStripe p0 "cus_created" rfl).1,
   (create_customer_forwards okStripe p0 "cus_created" rfl).2.2.1 rfl⟩

/-- C10: a `create_customer` request whose description is present but equal
to the empty string is dispatched exactly as when the description is absent:
the collaborator receives the fixed default marker, not the empty string. -/
theorem create_customer_empty_description_defaults (s : Stripe) (p : Params) :
    dispatch (some s) ⟨"create_customer", { p with description := some "" }⟩ =
      dispatch (some s) ⟨"create_customer", { p with description := none }⟩
    ∧ (customerReq { p with description := some "" }).description = "Created via MCP" :=
  ⟨rfl, rfl⟩

/-- C2: in `create_invoice`, if the collaborator accepts the first line item
but rejects the second, the loop aborts there: the third and later items are
never attempted, the invoice-creation operation is never invoked (the trace
is exactly the two line-item calls), and the dispatch result is HTTP 500
carrying exactly the collaborator's reported message. -/
theorem create_invoice_second_item_failure_aborts
    (s : Stripe) (p : Params) (i1 i2 : Item) (rest : List Item)
    (c : Payload) (e : StripeError)
    (hitems : p.items = some (i1 :: i2 :: rest))
    (h1 : s.invoiceItemsCreate (itemReq p i1) = .ok c)
    (h2 : s.invoiceItemsCreate (itemReq p i2) = .error e) :
    dispatch (some s) ⟨"create_invoice", p⟩ =
      (⟨500, .errorWithType e.message (jsStrOr e.type "api_error")⟩,
       [.invoiceItemsCreate (itemReq p i1), .invoiceItemsCreate (itemReq p i2)]) := by
  show dispatchConfigured s "create_invoice" p = _
  unfold dispatchConfigured
  rw [if_neg (by decide), if_pos rfl, hitems]
  have hrun : runItems s p (i1 :: i2 :: rest) =
      (some e, [.invoiceItemsCreate (itemReq p i1), .invoiceItemsCreate (itemReq p i2)]) := by
    unfold runItems
    rw [h1]
    unfold runItems
    rw [h2]
  simp [hrun, apiFailure]

/-- Witness for C2: a concrete two-item request against a collaborator that
rejects the item described `"B"`. -/
theorem create_invoice_second_item_failure_aborts_witness :
    pAB.items = some [itemA, itemB]
    ∧ failSecondStripe.invoiceItemsCreate (itemReq pAB itemA) = .ok "ii_created"
    ∧ failSecondStripe.invoiceItemsCreate (itemReq pAB itemB) =
        .error ⟨"card declined", none⟩
    ∧ dispatch (some failSecondStripe) ⟨"create_invoice", pAB⟩ =
        (⟨500, .errorWithType "card declined" "api_error"⟩,
         [.invoiceItemsCreate (itemReq pAB itemA), .invoiceItemsCreate (itemReq pAB itemB)]) :=
  ⟨rfl, rfl, rfl,
   create_invoice_second_item_failure_aborts failSecondStripe pAB itemA itemB []
     "ii_created" ⟨"card declined", none⟩ rfl rfl rfl⟩

/-- C3: a `create_invoice` request with items `[{amount: 19.99, description:
"A"}, {amount: 5.005, description: "B"}]`, when the collaborator accepts both
items, issues the two line-item calls with minor-unit amounts 1999 and then
501 (decimal amount times 100, rounded to nearest with `Math.round`, i.e.
half toward +∞), in that order, before the single invoice-creation call. -/
theorem create_invoice_minor_units
    (s : Stripe) (p : Params) (c1 c2 : Payload)
    (hitems : p.items = some [⟨19.99, some "A"⟩, ⟨5.005, some "B"⟩])
    (h1 : s.invoiceItemsCreate (itemReq p ⟨19.99, some "A"⟩) = .ok c1)
    (h2 : s.invoiceItemsCreate (itemReq p ⟨5.005, some "B"⟩) = .ok c2) :
    (dispatch (some s) ⟨"create_invoice", p⟩).2 =
      [.invoiceItemsCreate (itemReq p ⟨19.99, some "A"⟩),
       .invoiceItemsCreate (itemReq p ⟨5.005, some "B"⟩),
       .invoicesCreate (invoiceReq p)]
    ∧ (itemReq p ⟨19.99, some "A"⟩).amount = 1999
    ∧ (itemReq p ⟨5.005, some "B"⟩).amount = 501 := by
  refine ⟨?_, ?_, ?_⟩
  · show (dispatchConfigured s "create_invoice" p).2 = _
    unfold dispatchConfigured
    rw [if_neg (by decide), if_pos rfl, hitems]
    simp only [Option.getD_some]
    have hrun : runItems s p [⟨19.99, some "A"⟩, ⟨5.005, some "B"⟩] =
        (none, [.invoiceItemsCreate (itemReq p ⟨19.99, some "A"⟩),
                .invoiceItemsCreate (itemReq p ⟨5.005, some "B"⟩)]) := by
      unfold runItems
      rw [h1]
      unfold runItems
      rw [h2]
      rfl
    rw [hrun]
    cases s.invoicesCreate (invoiceReq p) <;> rfl
  · show jsRound ((19.99 : Rat) * 100) = 1999
    rw [jsRound_eq_floor, Int.floor_eq_iff]
    norm_num
  · show jsRound ((5.005 : Rat) * 100) = 501
    rw [jsRound_eq_floor, Int.floor_eq_iff]
    norm_num

/-- Witness for C3 against the all-succeeding collaborator. -/
theorem create_invoice_minor_units_witness :
    (dispatch (some okStripe)
        ⟨"create_invoice",
         { p0 with items := some [⟨19.99, some "A"⟩, ⟨5.005, some "B"⟩] }⟩).2 =
      [.invoiceItemsCreate
         (itemReq { p0 with items := some [⟨19.99, some "A"⟩, ⟨5.005, some "B"⟩] }
           ⟨19.99, some "A"⟩),
       .invoiceItemsCreate
         (itemReq { p0 with items := some [⟨19.99, some "A"⟩, ⟨5.005, some "B"⟩] }
           ⟨5.005, some "B"⟩),
       .invoicesCreate
         (invoiceReq { p0 with items := some [⟨19.99, some "A"⟩, ⟨5.005, some "B"⟩] })] :=
  (create_invoice_minor_units okStripe
    { p0 with items := some [⟨19.99, some "A"⟩, ⟨5.005, some "B"⟩] }
    "ii_created" "ii_created" rfl rfl rfl).1

/-- C5: a `process_payment` request with amount 10.004 issues exactly one
payment-intent creation, whose minor-unit amount is
`Math.round(10.004 * 100) = Math.round(1000.4) = 1000` — the rounding is
applied once, to the product. -/
theorem process_payment_minor_units (s : Stripe) (p : Params) :
    (dispatch (some s) ⟨"process_payment", { p with amount := 10.004 }⟩).2 =
      [.paymentIntentsCreate (piReq { p with amount := 10.004 })]
    ∧ (piReq { p with amount := 10.004 }).amount = 1000
    ∧ (piReq { p with amount := 10.004 }).amount =
        jsRound ((10.004 : Rat) * 100) := by
  refine ⟨?_, ?_, rfl⟩
  · show (dispatchConfigured s "process_payment" _).2 = _
    unfold dispatchConfigured
    rw [if_neg (by decide), if_neg (by decide), if_pos rfl]
    cases s.paymentIntentsCreate (piReq { p with amount := 10.004 }) <;> rfl
  · show jsRound ((10.004 : Rat) * 100) = 1000
    rw [jsRound_eq_floor, Int.floor_eq_iff]
    norm_num

/-- C6: the `GET /` response's `status` field equals `"ready"` exactly when
startup initialisation produced a handle (i.e. the payment collaborator was
successfully constructed); otherwise it equals `"stripe_not_configured"`. -/
theorem root_status_ready_iff (key : Option String)
    (mk : String → Except String Stripe) :
    ((rootHandler (initStripe key mk).1).status = "ready" ↔
      ((initStripe key mk).1).isSome = true)
    ∧ (((initStripe key mk).1).isSome = false →
      (rootHandler (initStripe key mk).1).status = "stripe_not_configured") := by
  unfold rootHandler
  cases h : (initStripe key mk).1 <;> simp

/-- Witness for C6 (the second conjunct has a hypothesis): with no credential
the handle is absent and the status is `"stripe_not_configured"`; with a
succeeding constructor the status is `"ready"`. -/
theorem root_status_ready_iff_witness :
    (rootHandler (initStripe none (fun _ => .ok okStripe)).1).status =
      "stripe_not_configured"
    ∧ (rootHandler (initStripe (some "sk_test") (fun _ => .ok okStripe)).1).status =
      "ready" :=
  ⟨(root_status_ready_iff none (fun _ => .ok okStripe)).2 rfl,
   (root_status_ready_iff (some "sk_test") (fun _ => .ok okStripe)).1.mpr rfl⟩

/-- C9: for `create_invoice` and `process_payment`, every collaborator call
carrying a currency field carries `params.currency || 'usd'`: the literal
`"usd"` when the parameter is absent, and the supplied value unchanged when
it is a truthy (non-empty) string. -/
theorem dispatch_currency_default (s : Stripe) (p : Params) :
    ((dispatch (some s) ⟨"create_invoice", p⟩).2.all
        (callCurrencyOk (jsStrOr p.currency "usd")) = true)
    ∧ ((dispatch (some s) ⟨"process_payment", p⟩).2.all
        (callCurrencyOk (jsStrOr p.currency "usd")) = true)
    ∧ (p.currency = none → jsStrOr p.currency "usd" = "usd")
    ∧ (∀ c, p.currency = some c → c ≠ "" → jsStrOr p.currency "usd" = c) := by
  refine ⟨?_, ?_, ?_, ?_⟩
  · show ((dispatchConfigured s "create_invoice" p).2.all _) = true
    unfold dispatchConfigured
    rw [if_neg (by decide), if_pos rfl]
    have hall := runItems_currency s p (p.items.getD [])
    cases hres : (runItems s p (p.items.getD [])).1
    · cases hinv : s.invoicesCreate (invoiceReq p) <;>
        simp_all [List.all_append, callCurrencyOk]
    · simp_all
  · show ((dispatchConfigured s "process_payment" p).2.all _) = true
    unfold dispatchConfigured
    rw [if_neg (by decide), if_neg (by decide), if_pos rfl]
    cases hpi : s.paymentIntentsCreate (piReq p) <;>
      simp [callCurrencyOk, piReq]
  · intro h
    rw [h]
    rfl
  · intro c hc hne
    simp [jsStrOr, hc, hne]

/-- Witness for C9 at concrete inputs: an omitted currency resolves to
`"usd"` and a supplied `"eur"` passes through. -/
theorem dispatch_currency_default_witness :
    ((dispatch (some okStripe) ⟨"create_invoice", pAB⟩).2.all
        (callCurrencyOk (jsStrOr pAB.currency "usd")) = true)
    ∧ jsStrOr p0.currency "usd" = "usd"
    ∧ jsStrOr ({ p0 with currency := some "eur" } : Params).currency "usd" = "eur" :=
  ⟨(dispatch_currency_default okStripe pAB).1,
   (dispatch_currency_default okStripe p0).2.2.1 rfl,
   (dispatch_currency_default okStripe { p0 with currency := some "eur" }).2.2.2
     "eur" rfl (by decide)⟩

/-- C7 counterexample: the claim ties `env.stripeConfigured` to the presence
of the handle, but the source computes it from the environment variable
(`!!process.env.STRIPE_SECRET_KEY`, line 38).  When the credential is present
yet the Stripe constructor throws (the `catch` at lines 57-60), the flag is
`true` while the handle is absent. -/
theorem health_flag_vs_handle_counterexample :
    (healthHandler (some "sk_test")).2.stripeConfigured = true
    ∧ (initStripe (some "sk_test") (fun _ => .error "bad key")).1 = none := by
  constructor
  · decide
  · rfl

/-- C7 (amended): every `GET /health` answers HTTP 200 with
`stripeConfigured` equal to the truthiness of the credential at startup,
regardless of the number, kind or outcome of the surrounding requests
(including prior `/mcp` calls) and of whether handle construction
succeeded. -/
theorem health_always_ok (key : Option String)
    (mk : String → Except String Stripe) (pre post : List ServerReq) :
    (serve key mk (pre ++ ServerReq.health :: post))[pre.length]? =
      some (.health 200 ⟨"healthy", truthy key⟩) := by
  unfold serve
  rw [List.map_append, List.getElem?_append_right (by simp)]
  simp [handleReq, healthHandler]
